import Mathlib

/-
Verification of the vector indexing and threshold-based similarity search
core of the clone-detection system.

The development shallowly embeds the Python sources:
  * clone_detection/indexing/faiss_index.py
      (FAISSIndexBuilder and the metric-conversion functions
       cosine_to_l2_threshold / l2_to_cosine_similarity)
  * clone_detection/query/search.py
      (CloneSearcher.find_clones, find_clones_batch, _hydrate_results)
  * clone_detection/query/metadata.py
      (MetadataStore: INSERT OR REPLACE upserts, lookups, count)

Python floats are modelled as real numbers; Python exceptions are modelled
with an `Except` of an error taxonomy (ValueError at construction time is
ConfigurationError, RuntimeError for lifecycle misuse is StateError, and the
ValueError of the threshold domain check is ValidationError).  The FAISS
library itself is external to the repository; where its behaviour decides a
claim it is modelled from the specification's contract for the VectorIndex
(see the `Modelled from the spec:` doc comments).
-/

namespace CloneDetection

/-- Error taxonomy of the specification, mapped from the Python exceptions
raised by the embedded code. -/
inductive Err where
  | ConfigurationError
  | StateError
  | ValidationError
deriving DecidableEq

/-- An embedding vector, as in the Python code a finite sequence of floats,
modelled as a list of reals. -/
abbrev Vec := List ℝ

/-- Dot product of two vectors (trailing elements of the longer list are
ignored, as in a componentwise loop over the common prefix). -/
def dot : Vec → Vec → ℝ
  | x :: xs, y :: ys => x * y + dot xs ys
  | _, _ => 0

/-- Squared Euclidean norm. -/
def sqNorm (v : Vec) : ℝ := dot v v

/-- Componentwise difference of two vectors. -/
def subVec (u v : Vec) : Vec := List.zipWith (fun a b => a - b) u v

/-- Squared Euclidean distance between two vectors. -/
def sqDist (u v : Vec) : ℝ := sqNorm (subVec u v)

/-- Modelled from the spec: the Normalizer (faiss.normalize_L2, external to
the repository) rescales a vector to unit Euclidean length, leaving a zero
vector unchanged rather than dividing by zero. -/
noncomputable def normalize_L2 (v : Vec) : Vec :=
  if Real.sqrt (sqNorm v) = 0 then v
  else v.map (fun x => x / Real.sqrt (sqNorm v))

/-- Embeds `cosine_to_l2_threshold` (faiss_index.py): the domain check
`0 <= cosine_similarity <= 1` raises ValueError (spec: ValidationError),
otherwise the function returns `sqrt(2 - 2 * cosine_similarity)`. -/
noncomputable def cosine_to_l2_threshold (cosine_similarity : ℝ) : Except Err ℝ :=
  if 0 ≤ cosine_similarity ∧ cosine_similarity ≤ 1 then
    Except.ok (Real.sqrt (2 - 2 * cosine_similarity))
  else Except.error Err.ValidationError

/-- Embeds `l2_to_cosine_similarity` (faiss_index.py):
`1 - (l2_distance ** 2) / 2`, with no domain check. -/
noncomputable def l2_to_cosine_similarity (l2_distance : ℝ) : ℝ :=
  1 - l2_distance ^ 2 / 2

theorem sqNorm_nonneg (v : Vec) : 0 ≤ sqNorm v := by
  induction v with
  | nil => simp [sqNorm, dot]
  | cons x xs ih =>
    have hx : 0 ≤ x * x := mul_self_nonneg x
    simp only [sqNorm, dot] at ih ⊢
    linarith

theorem sqDist_nonneg (u v : Vec) : 0 ≤ sqDist u v := sqNorm_nonneg _

theorem sqDist_self (v : Vec) : sqDist v v = 0 := by
  induction v with
  | nil => simp [sqDist, sqNorm, subVec, dot]
  | cons x xs ih =>
    simp only [sqDist, sqNorm, subVec, List.zipWith] at ih ⊢
    simp only [dot]
    rw [ih]
    ring

theorem sqDist_eq_of_length :
    ∀ u v : Vec, u.length = v.length →
      sqDist u v = sqNorm u + sqNorm v - 2 * dot u v
  | [], [], _ => by simp [sqDist, sqNorm, subVec, dot]
  | [], _ :: _, h => by simp at h
  | _ :: _, [], h => by simp at h
  | x :: xs, y :: ys, h => by
    have ih := sqDist_eq_of_length xs ys (by simpa using h)
    simp only [sqDist, sqNorm, subVec, List.zipWith, dot] at ih ⊢
    rw [show dot (List.zipWith (fun a b => a - b) xs ys)
          (List.zipWith (fun a b => a - b) xs ys)
        = dot xs xs + dot ys ys - 2 * dot xs ys from ih]
    ring

/-- The three FAISS index flavours of `IndexType` (faiss_index.py). -/
inductive IndexType where
  | FLAT
  | IVF_FLAT
  | IVF_PQ
deriving DecidableEq

/-- State of a `FAISSIndexBuilder` (faiss_index.py): the configuration
fields set by `__init__`, whether `self.index` has been allocated
(`created`), the `is_trained` flag, the parameters learned by `train`
(the normalized training sample standing in for the learned centroids and
codebooks), and the stored `(id, vector)` pairs (`ntotal` is their count). -/
structure FAISSIndexBuilder where
  dimension : ℕ
  index_type : IndexType
  nlist : ℕ
  m : ℕ
  nbits : ℕ
  nprobe : ℕ
  use_gpu : Bool
  created : Bool
  is_trained : Bool
  trained_params : Option (List Vec)
  entries : List (Int × Vec)

/-- Embeds `FAISSIndexBuilder.__init__`: records the configuration and
raises ValueError (spec: ConfigurationError) when `dimension % m != 0`;
the check is performed unconditionally, before any branching on the
index type. -/
def FAISSIndexBuilder.init (dimension : ℕ) (index_type : IndexType)
    (nlist m nbits nprobe : ℕ) (use_gpu : Bool) :
    Except Err FAISSIndexBuilder :=
  if dimension % m ≠ 0 then Except.error Err.ConfigurationError
  else Except.ok
    { dimension := dimension, index_type := index_type, nlist := nlist,
      m := m, nbits := nbits, nprobe := nprobe, use_gpu := use_gpu,
      created := false, is_trained := false, trained_params := none,
      entries := [] }

/-- Embeds `FAISSIndexBuilder._create_index`: allocates the backend
structure; only the FLAT branch sets `is_trained = True` (a flat index
needs no training). -/
def FAISSIndexBuilder.create_index (b : FAISSIndexBuilder) : FAISSIndexBuilder :=
  { b with
    created := true,
    is_trained := if b.index_type = IndexType.FLAT then true else b.is_trained }

/-- Embeds `FAISSIndexBuilder.train`: an already-trained index is left
unchanged (warning, early return); otherwise the index is created if
needed, the training vectors are L2-normalized, and the index is trained,
setting `is_trained`. -/
noncomputable def FAISSIndexBuilder.train (b : FAISSIndexBuilder)
    (train_vectors : List Vec) : FAISSIndexBuilder :=
  if b.is_trained then b
  else
    let b1 := if b.created then b else b.create_index
    { b1 with
      is_trained := true,
      trained_params := some (train_vectors.map normalize_L2) }

/-- Embeds `FAISSIndexBuilder.add`: raises RuntimeError (spec: StateError)
when the index is not trained, or not created; otherwise IDs default to a
sequential range continuing from the current count, the vectors are
L2-normalized, and the `(id, vector)` pairs are appended. -/
noncomputable def FAISSIndexBuilder.add (b : FAISSIndexBuilder)
    (vectors : List Vec) (ids : Option (List Int)) :
    Except Err FAISSIndexBuilder :=
  if b.is_trained then
    if b.created then
      Except.ok
        { b with
          entries := b.entries ++
            (match ids with
             | none => (List.range vectors.length).map
                 (fun i => ((b.entries.length + i : ℕ) : Int))
             | some l => l).zip (vectors.map normalize_L2) }
    else Except.error Err.StateError
  else Except.error Err.StateError

/-- Modelled from the spec: `range_search` of the exact (Flat) FAISS
backend (the FAISS library is external to the repository).  Per the
VectorIndex contract, it returns every stored ID whose distance to the
query is at most the threshold, each paired with its exact distance. -/
noncomputable def range_search (store : List (Int × Vec)) (q : Vec)
    (radius : ℝ) : List (Int × ℝ) :=
  store.filterMap fun e =>
    if Real.sqrt (sqDist q e.2) ≤ radius then
      some (e.1, Real.sqrt (sqDist q e.2))
    else none

/-- A snippet metadata record, one row of the `snippets` table
(metadata.py). -/
structure SnippetRow where
  id : Int
  code : String
  file_path : String
  start_line : Int
  end_line : Int
  language : String
  function_name : Option String
deriving DecidableEq

/-- A detected clone, embedding the `CloneMatch` dataclass (search.py). -/
structure CloneMatch where
  snippet_id : Int
  file_path : String
  start_line : Int
  end_line : Int
  language : String
  function_name : Option String
  similarity : ℝ
  code : String

/-- Embeds `CloneSearcher._hydrate_results`: walk the matched
`(id, similarity)` pairs; drop a pair whose ID has no metadata record;
when `exclude_self` is set also drop a pair with similarity `>= 0.9999`;
otherwise join the metadata fields into a `CloneMatch`. -/
noncomputable def hydrate_results (meta : List SnippetRow)
    (snippet_ids : List Int) (similarities : List ℝ)
    (exclude_self : Bool) : List CloneMatch :=
  (snippet_ids.zip similarities).filterMap fun p =>
    match meta.find? (fun r => r.id = p.1) with
    | none => none
    | some r =>
      if exclude_self = true ∧ (0.9999 : ℝ) ≤ p.2 then none
      else some
        { snippet_id := p.1, file_path := r.file_path,
          start_line := r.start_line, end_line := r.end_line,
          language := r.language, function_name := r.function_name,
          similarity := p.2, code := r.code }

/-- Embeds `clones.sort(key=lambda x: x.similarity, reverse=True)`
(search.py): a stable sort by similarity descending, here the stable
insertion sort with the relation "at least as similar". -/
noncomputable def sort_by_similarity (clones : List CloneMatch) :
    List CloneMatch :=
  List.insertionSort (fun a b => b.similarity ≤ a.similarity) clones

/-- Embeds the `max_results` truncation of `find_clones`; Python's
`if max_results:` is false for both `None` and `0`, so both leave the
list untouched. -/
def truncate (max_results : Option ℕ) (clones : List CloneMatch) :
    List CloneMatch :=
  match max_results with
  | none => clones
  | some k => if k = 0 then clones else clones.take k

/-- The similarity-annotated clone list built from the raw hits of a
range search: steps 5 and 6 of `find_clones` (convert each L2 distance
back to a cosine similarity, then hydrate). -/
noncomputable def clones_of_hits (meta : List SnippetRow)
    (hits : List (Int × ℝ)) (exclude_self : Bool) : List CloneMatch :=
  hydrate_results meta (hits.map Prod.fst)
    (hits.map fun h => l2_to_cosine_similarity h.2) exclude_self

/-- Embeds `CloneSearcher.find_clones` from the point where the query
vector has been produced and L2-normalized (steps 1 and 2 delegate to the
opaque embedding collaborator and the Normalizer): convert the similarity
threshold, range-search the exact index, convert distances back to
similarities, hydrate, sort by similarity descending, and apply the
`max_results` truncation. -/
noncomputable def find_clones (store : List (Int × Vec))
    (meta : List SnippetRow) (query_vec : Vec) (similarity_threshold : ℝ)
    (max_results : Option ℕ) (exclude_self : Bool) :
    Except Err (List CloneMatch) :=
  match cosine_to_l2_threshold similarity_threshold with
  | Except.error e => Except.error e
  | Except.ok l2_threshold =>
    Except.ok (truncate max_results (sort_by_similarity
      (clones_of_hits meta (range_search store query_vec l2_threshold)
        exclude_self)))

/-- Embeds `CloneSearcher.find_clones_batch` from the point where the
query vectors have been embedded and normalized: an empty input returns
`[]` at once; otherwise each query is range-searched with the converted
threshold and hydrated with `_hydrate_results`' default
`exclude_self=True`, and each per-query list is sorted by similarity
descending.  The method takes no `exclude_self` parameter. -/
noncomputable def find_clones_batch (store : List (Int × Vec))
    (meta : List SnippetRow) (query_vecs : List Vec)
    (similarity_threshold : ℝ) : Except Err (List (List CloneMatch)) :=
  if query_vecs.isEmpty then Except.ok []
  else
    match cosine_to_l2_threshold similarity_threshold with
    | Except.error e => Except.error e
    | Except.ok l2_threshold =>
      Except.ok (query_vecs.map fun q =>
        sort_by_similarity
          (clones_of_hits meta (range_search store q l2_threshold) true))

namespace MetadataStore

/-- Embeds the effect of `INSERT OR REPLACE INTO snippets` on one row:
the row with the same primary-key `id`, if any, is replaced. -/
def upsert_row (tbl : List SnippetRow) (r : SnippetRow) : List SnippetRow :=
  tbl.filter (fun x => x.id ≠ r.id) ++ [r]

/-- Embeds `MetadataStore.add_snippets_batch` (executemany of
`INSERT OR REPLACE`): the rows are upserted in order. -/
def add_snippets_batch (tbl : List SnippetRow) (batch : List SnippetRow) :
    List SnippetRow :=
  batch.foldl upsert_row tbl

/-- Embeds `MetadataStore.get_snippet`: the row with the given id, if
present. -/
def get_snippet (tbl : List SnippetRow) (i : Int) : Option SnippetRow :=
  tbl.find? (fun r => r.id = i)

/-- Embeds `MetadataStore.count` (`SELECT COUNT(*) FROM snippets`). -/
def count (tbl : List SnippetRow) : ℕ := tbl.length

end MetadataStore

theorem cosine_to_l2_threshold_ok {t r : ℝ}
    (h : cosine_to_l2_threshold t = Except.ok r) :
    (0 ≤ t ∧ t ≤ 1) ∧ r = Real.sqrt (2 - 2 * t) := by
  rw [cosine_to_l2_threshold] at h
  split_ifs at h with hc
  exact ⟨hc, (Except.ok.injEq _ _ ▸ h).symm⟩

/-- C2: for every x in [0,1], `distance_to_similarity(similarity_to_distance(x))`
is within 1e-4 absolute of x.  In the real-number model the round trip is
exact, hence within the tolerance. -/
theorem C2_round_trip (x d : ℝ) (_h0 : 0 ≤ x) (h1 : x ≤ 1)
    (hd : cosine_to_l2_threshold x = Except.ok d) :
    |l2_to_cosine_similarity d - x| ≤ 1 / 10000 := by
  obtain ⟨-, hdef⟩ := cosine_to_l2_threshold_ok hd
  rw [hdef, l2_to_cosine_similarity, Real.sq_sqrt (by linarith)]
  have h2 : (1 : ℝ) - (2 - 2 * x) / 2 = x := by ring
  rw [h2, sub_self, abs_zero]
  norm_num

/-- C2 witness at x = 1/2. -/
theorem C2_round_trip_witness :
    |l2_to_cosine_similarity (Real.sqrt (2 - 2 * (1 / 2))) - 1 / 2|
      ≤ 1 / 10000 :=
  C2_round_trip (1 / 2) _ (by norm_num) (by norm_num)
    (by rw [cosine_to_l2_threshold, if_pos (by norm_num)])

/-- C3: `similarity_to_distance` fails with ValidationError exactly when its
argument is outside [0,1]; inside [0,1] it returns
`sqrt(max(0, 2 - 2*cos_sim))` (the clamp is the identity there since the
radicand is nonnegative); `similarity_to_distance(0.95)` is within 1e-3 of
0.316 and `similarity_to_distance(0.90)` is within 1e-3 of 0.447. -/
theorem C3_domain_check_and_values (c : ℝ) :
    ((∃ r, cosine_to_l2_threshold c = Except.ok r) ↔ 0 ≤ c ∧ c ≤ 1) ∧
    (¬(0 ≤ c ∧ c ≤ 1) →
      cosine_to_l2_threshold c = Except.error Err.ValidationError) ∧
    (0 ≤ c → c ≤ 1 →
      cosine_to_l2_threshold c = Except.ok (Real.sqrt (max 0 (2 - 2 * c)))) ∧
    (∀ d, cosine_to_l2_threshold (0.95 : ℝ) = Except.ok d →
      |d - 0.316| ≤ 1 / 1000) ∧
    (∀ d, cosine_to_l2_threshold (0.90 : ℝ) = Except.ok d →
      |d - 0.447| ≤ 1 / 1000) := by
  refine ⟨?_, ?_, ?_, ?_, ?_⟩
  · rw [cosine_to_l2_threshold]
    split_ifs with hc
    · exact iff_of_true ⟨_, rfl⟩ hc
    · refine iff_of_false ?_ hc
      rintro ⟨r, hr⟩
      exact absurd hr (by simp)
  · intro hc
    rw [cosine_to_l2_threshold, if_neg hc]
  · intro h0 h1
    rw [cosine_to_l2_threshold, if_pos ⟨h0, h1⟩,
      max_eq_right (by linarith : (0:ℝ) ≤ 2 - 2 * c)]
  · intro d hd
    obtain ⟨-, hdef⟩ := cosine_to_l2_threshold_ok hd
    have he : (2 - 2 * (0.95 : ℝ)) = 1 / 10 := by norm_num
    rw [hdef, he, abs_le]
    constructor
    · nlinarith [Real.sqrt_le_sqrt (by norm_num : ((315:ℝ)/1000)^2 ≤ 1/10),
        Real.sqrt_sq (by norm_num : (0:ℝ) ≤ 315/1000)]
    · nlinarith [Real.sqrt_le_sqrt (by norm_num : (1:ℝ)/10 ≤ ((317:ℝ)/1000)^2),
        Real.sqrt_sq (by norm_num : (0:ℝ) ≤ 317/1000)]
  · intro d hd
    obtain ⟨-, hdef⟩ := cosine_to_l2_threshold_ok hd
    have he : (2 - 2 * (0.90 : ℝ)) = 1 / 5 := by norm_num
    rw [hdef, he, abs_le]
    constructor
    · nlinarith [Real.sqrt_le_sqrt (by norm_num : ((446:ℝ)/1000)^2 ≤ 1/5),
        Real.sqrt_sq (by norm_num : (0:ℝ) ≤ 446/1000)]
    · nlinarith [Real.sqrt_le_sqrt (by norm_num : (1:ℝ)/5 ≤ ((448:ℝ)/1000)^2),
        Real.sqrt_sq (by norm_num : (0:ℝ) ≤ 448/1000)]

/-- C3 witness: the in-domain formula evaluated at 0.95. -/
theorem C3_domain_check_and_values_witness :
    cosine_to_l2_threshold (0.95 : ℝ)
      = Except.ok (Real.sqrt (max 0 (2 - 2 * (0.95 : ℝ)))) :=
  (C3_domain_check_and_values (0.95 : ℝ)).2.2.1 (by norm_num) (by norm_num)

/-- C4: on a clustered backend (index type other than FLAT), `add` before
`train` fails with StateError (the exception leaves the builder state
untouched, so no vectors are added); after `train` has run, `add`
succeeds. -/
theorem C4_add_requires_train (d nl m nb np : ℕ) (g : Bool) (it : IndexType)
    (hit : it ≠ IndexType.FLAT) (b : FAISSIndexBuilder)
    (hb : FAISSIndexBuilder.init d it nl m nb np g = Except.ok b)
    (vs tv : List Vec) (ids : Option (List Int)) :
    b.create_index.add vs ids = Except.error Err.StateError ∧
    ((b.create_index.train tv).add vs ids).isOk = true := by
  rw [FAISSIndexBuilder.init] at hb
  split_ifs at hb
  have hb' := (Except.ok.injEq _ _ ▸ hb)
  subst hb'
  constructor
  · rw [FAISSIndexBuilder.add.eq_def]
    simp [FAISSIndexBuilder.create_index, hit]
  · rw [FAISSIndexBuilder.train]
    simp only [FAISSIndexBuilder.create_index, hit, if_neg, if_false]
    rw [FAISSIndexBuilder.add.eq_def]
    rfl

/-- C4 witness: a concrete IVF_FLAT builder of dimension 4, m = 2. -/
theorem C4_add_requires_train_witness :
    ∃ b, FAISSIndexBuilder.init 4 IndexType.IVF_FLAT 16 2 8 16 false
        = Except.ok b ∧
      b.create_index.add [[1, 0, 0, 0]] none = Except.error Err.StateError ∧
      ((b.create_index.train [[1, 0, 0, 0]]).add [[1, 0, 0, 0]] none).isOk
        = true :=
  ⟨_, rfl,
    C4_add_requires_train 4 16 2 8 16 false IndexType.IVF_FLAT (by decide)
      _ rfl [[1, 0, 0, 0]] [[1, 0, 0, 0]] none⟩

/-- C5 counterexample: the claim says construction of a non-quantized
(FLAT) backend succeeds regardless of whether m divides the dimension,
but `__init__` validates `dimension % m == 0` unconditionally: a FLAT
builder with dimension 10 and m = 3 fails with ConfigurationError. -/
theorem C5_counterexample :
    FAISSIndexBuilder.init 10 IndexType.FLAT 16 3 8 16 false
      = Except.error Err.ConfigurationError := rfl

/-- C5 (amended): for every backend kind, construction fails with
ConfigurationError exactly when m (taken positive, as Python's `%` is
undefined for m = 0) does not evenly divide the dimension. -/
theorem C5_divisibility_checked_for_all_backends (d nl m nb np : ℕ)
    (g : Bool) (it : IndexType) (_hm : 0 < m) :
    ((∃ b, FAISSIndexBuilder.init d it nl m nb np g = Except.ok b)
        ↔ d % m = 0) ∧
    (d % m ≠ 0 →
      FAISSIndexBuilder.init d it nl m nb np g
        = Except.error Err.ConfigurationError) := by
  constructor
  · rw [FAISSIndexBuilder.init]
    split_ifs with hc
    · refine iff_of_false ?_ hc
      rintro ⟨b, hb⟩
      exact absurd hb (by simp)
    · exact iff_of_true ⟨_, rfl⟩ (by simpa using hc)
  · intro hc
    rw [FAISSIndexBuilder.init, if_pos hc]

/-- C5 amended-claim witness at dimension 10, m = 3 (quantized backend)
and the divisible case dimension 4, m = 2. -/
theorem C5_divisibility_checked_witness :
    ((∃ b, FAISSIndexBuilder.init 10 IndexType.IVF_PQ 16 3 8 16 false
        = Except.ok b) ↔ 10 % 3 = 0) ∧
    (10 % 3 ≠ 0 →
      FAISSIndexBuilder.init 10 IndexType.IVF_PQ 16 3 8 16 false
        = Except.error Err.ConfigurationError) :=
  C5_divisibility_checked_for_all_backends 10 16 3 8 16 false
    IndexType.IVF_PQ (by decide)

/-- C6: `train` is idempotent: on an already-trained builder it returns the
state unchanged (no field, in particular no trained parameter and no stored
entry, is modified) and signals no error (the model's `train` is total). -/
theorem C6_train_idempotent (b : FAISSIndexBuilder) (tv : List Vec)
    (h : b.is_trained = true) : b.train tv = b := by
  rw [FAISSIndexBuilder.train, if_pos h]

/-- C6 witness: a concrete trained FLAT builder. -/
theorem C6_train_idempotent_witness :
    FAISSIndexBuilder.train
      { dimension := 4, index_type := IndexType.FLAT, nlist := 16, m := 2,
        nbits := 8, nprobe := 16, use_gpu := false, created := true,
        is_trained := true, trained_params := none, entries := [] } []
      = { dimension := 4, index_type := IndexType.FLAT, nlist := 16, m := 2,
          nbits := 8, nprobe := 16, use_gpu := false, created := true,
          is_trained := true, trained_params := none, entries := [] } :=
  C6_train_idempotent _ [] rfl

theorem mem_range_search {store : List (Int × Vec)} {q : Vec} {r : ℝ}
    {p : Int × ℝ} :
    p ∈ range_search store q r ↔
      ∃ e ∈ store, Real.sqrt (sqDist q e.2) ≤ r ∧
        p = (e.1, Real.sqrt (sqDist q e.2)) := by
  rw [range_search]
  simp only [List.mem_filterMap]
  constructor
  · rintro ⟨e, he, hp⟩
    by_cases hc : Real.sqrt (sqDist q e.2) ≤ r
    · rw [if_pos hc] at hp
      exact ⟨e, he, hc, ((Option.some.injEq _ _ ▸ hp)).symm⟩
    · rw [if_neg hc] at hp
      exact absurd hp (by simp)
  · rintro ⟨e, he, hc, hp⟩
    exact ⟨e, he, by rw [if_pos hc, hp]⟩

/-- C1: for the exact (Flat) backend, a range search on a normalized query
with radius `similarity_to_distance(t)` returns exactly the stored IDs
whose cosine similarity (the dot product, for unit vectors) with the query
is at least t: no false positives and no misses. -/
theorem C1_flat_range_search_exact (store : List (Int × Vec)) (q : Vec)
    (t r : ℝ) (hq : sqNorm q = 1)
    (hstore : ∀ e ∈ store, sqNorm e.2 = 1 ∧ e.2.length = q.length)
    (ht : cosine_to_l2_threshold t = Except.ok r) (i : Int) :
    (∃ d, (i, d) ∈ range_search store q r) ↔
      ∃ v, (i, v) ∈ store ∧ t ≤ dot q v := by
  obtain ⟨⟨h0, h1⟩, hr⟩ := cosine_to_l2_threshold_ok ht
  have hrad : (0:ℝ) ≤ 2 - 2 * t := by linarith
  have key : ∀ e ∈ store,
      (Real.sqrt (sqDist q e.2) ≤ r ↔ t ≤ dot q e.2) := by
    intro e he
    obtain ⟨hnorm, hlen⟩ := hstore e he
    rw [hr, Real.sqrt_le_sqrt_iff hrad,
      sqDist_eq_of_length q e.2 hlen.symm, hq, hnorm]
    constructor <;> intro h <;> linarith
  constructor
  · rintro ⟨d, hd⟩
    obtain ⟨e, he, hc, hp⟩ := mem_range_search.mp hd
    obtain ⟨hi, -⟩ := Prod.mk.injEq .. ▸ hp
    exact ⟨e.2, by rwa [hi], (key e he).mp hc⟩
  · rintro ⟨v, hv, hsim⟩
    refine ⟨Real.sqrt (sqDist q v), mem_range_search.mpr ⟨(i, v), hv, ?_, rfl⟩⟩
    exact (key (i, v) hv).mpr hsim

/-- C1 witness: a one-vector store, queried with its own vector at
threshold 1/2. -/
theorem C1_flat_range_search_exact_witness :
    (∃ d, ((0:Int), d) ∈
        range_search [((0:Int), [1, 0])] [1, 0]
          (Real.sqrt (2 - 2 * (1 / 2)))) ↔
      ∃ v, ((0:Int), v) ∈ [((0:Int), ([1, 0] : Vec))] ∧
        (1 / 2 : ℝ) ≤ dot [1, 0] v :=
  C1_flat_range_search_exact [((0:Int), [1, 0])] [1, 0] (1 / 2) _
    (by simp [sqNorm, dot])
    (by
      intro e he
      simp only [List.mem_singleton] at he
      subst he
      constructor
      · simp [sqNorm, dot]
      · rfl)
    (by rw [cosine_to_l2_threshold, if_pos (by norm_num)]) 0

theorem sorted_sort_by_similarity (l : List CloneMatch) :
    (sort_by_similarity l).Sorted fun a b => b.similarity ≤ a.similarity := by
  haveI : IsTotal CloneMatch fun a b => b.similarity ≤ a.similarity :=
    ⟨fun a b => le_total b.similarity a.similarity⟩
  haveI : IsTrans CloneMatch fun a b => b.similarity ≤ a.similarity :=
    ⟨fun _ _ _ h1 h2 => le_trans h2 h1⟩
  exact List.sorted_insertionSort _ l

theorem mem_sort_by_similarity {m : CloneMatch} {l : List CloneMatch} :
    m ∈ sort_by_similarity l ↔ m ∈ l :=
  (List.perm_insertionSort _ l).mem_iff

theorem mem_truncate {m : CloneMatch} {mr : Option ℕ} {l : List CloneMatch}
    (h : m ∈ truncate mr l) : m ∈ l := by
  rcases mr with _ | k
  · exact h
  · rw [truncate] at h
    split_ifs at h
    · exact h
    · exact (List.take_sublist k l).subset h

theorem sorted_truncate {R : CloneMatch → CloneMatch → Prop}
    {mr : Option ℕ} {l : List CloneMatch} (h : l.Sorted R) :
    (truncate mr l).Sorted R := by
  rcases mr with _ | k
  · exact h
  · rw [truncate]
    split_ifs
    · exact h
    · exact h.sublist (List.take_sublist k l)

theorem hydrate_results_mem {meta : List SnippetRow} {ids : List Int}
    {sims : List ℝ} {ex : Bool} {m : CloneMatch}
    (hm : m ∈ hydrate_results meta ids sims ex) :
    ∃ p ∈ ids.zip sims, m.snippet_id = p.1 ∧ m.similarity = p.2 ∧
      ¬(ex = true ∧ (0.9999 : ℝ) ≤ p.2) := by
  rw [hydrate_results, List.mem_filterMap] at hm
  obtain ⟨p, hp, hf⟩ := hm
  rcases hfind : meta.find? (fun r => r.id = p.1) with _ | r <;>
    rw [hfind] at hf
  · exact absurd hf (by simp)
  · have hf2 : (if ex = true ∧ (0.9999 : ℝ) ≤ p.2 then none
        else some ({ snippet_id := p.1, file_path := r.file_path,
                     start_line := r.start_line, end_line := r.end_line,
                     language := r.language,
                     function_name := r.function_name,
                     similarity := p.2, code := r.code } : CloneMatch))
        = some m := hf
    split_ifs at hf2 with hc
    injection hf2 with hf'
    subst hf'
    exact ⟨p, hp, rfl, rfl, hc⟩

theorem hydrate_results_mem_of {meta : List SnippetRow} {ids : List Int}
    {sims : List ℝ} {i : Int} {s : ℝ}
    (hpair : (i, s) ∈ ids.zip sims) (hr : ∃ r ∈ meta, r.id = i)
    (ex : Bool) (hex : ¬(ex = true ∧ (0.9999 : ℝ) ≤ s)) :
    ∃ m ∈ hydrate_results meta ids sims ex,
      m.snippet_id = i ∧ m.similarity = s := by
  have hsome : (meta.find? (fun r => r.id = i)).isSome := by
    rw [List.find?_isSome]
    obtain ⟨r, hrm, hri⟩ := hr
    exact ⟨r, hrm, by simp [hri]⟩
  obtain ⟨r0, hr0⟩ := Option.isSome_iff_exists.mp hsome
  refine ⟨{ snippet_id := i, file_path := r0.file_path,
            start_line := r0.start_line, end_line := r0.end_line,
            language := r0.language, function_name := r0.function_name,
            similarity := s, code := r0.code }, ?_, rfl, rfl⟩
  rw [hydrate_results, List.mem_filterMap]
  refine ⟨(i, s), hpair, ?_⟩
  rw [hr0]
  show (if ex = true ∧ (0.9999 : ℝ) ≤ s then none
      else some ({ snippet_id := i, file_path := r0.file_path,
                   start_line := r0.start_line, end_line := r0.end_line,
                   language := r0.language,
                   function_name := r0.function_name,
                   similarity := s, code := r0.code } : CloneMatch)) = _
  rw [if_neg hex]

theorem hydrate_results_exclude {meta : List SnippetRow} {ids : List Int}
    {sims : List ℝ} {m : CloneMatch}
    (hm : m ∈ hydrate_results meta ids sims true) :
    m.similarity < 0.9999 := by
  obtain ⟨p, -, -, hsim, hc⟩ := hydrate_results_mem hm
  rw [hsim]
  by_contra hle
  exact hc ⟨rfl, le_of_not_lt hle⟩

theorem find_clones_ok {store : List (Int × Vec)} {meta : List SnippetRow}
    {q : Vec} {t : ℝ} {mr : Option ℕ} {ex : Bool} {cl : List CloneMatch}
    (h : find_clones store meta q t mr ex = Except.ok cl) :
    ∃ r, cosine_to_l2_threshold t = Except.ok r ∧
      cl = truncate mr (sort_by_similarity
        (clones_of_hits meta (range_search store q r) ex)) := by
  rw [find_clones.eq_def] at h
  split at h
  · exact absurd h (by simp)
  · next r hth => exact ⟨r, hth, ((Except.ok.injEq _ _ ▸ h)).symm⟩

theorem find_clones_batch_ok {store : List (Int × Vec)}
    {meta : List SnippetRow} {qs : List Vec} {t : ℝ}
    {lists : List (List CloneMatch)}
    (h : find_clones_batch store meta qs t = Except.ok lists) :
    lists = [] ∨ ∃ r, cosine_to_l2_threshold t = Except.ok r ∧
      lists = qs.map fun q => sort_by_similarity
        (clones_of_hits meta (range_search store q r) true) := by
  rw [find_clones_batch.eq_def] at h
  split_ifs at h with he
  · exact Or.inl ((Except.ok.injEq _ _ ▸ h)).symm
  · split at h
    · exact absurd h (by simp)
    · next r hth =>
      exact Or.inr ⟨r, hth, ((Except.ok.injEq _ _ ▸ h)).symm⟩

/-- C7: with self-match exclusion enabled (the default) every match with
similarity at least 0.9999 is absent from the hydrated result list of
`find_clones`; with exclusion disabled, a query vector identical to a
stored vector whose ID has a metadata record yields a result entry for
that ID with similarity at least 0.9999 (in fact exactly 1). -/
theorem C7_self_match_exclusion (store : List (Int × Vec))
    (meta : List SnippetRow) (q : Vec) (t : ℝ) (mr : Option ℕ) :
    (∀ cl, find_clones store meta q t mr true = Except.ok cl →
      ∀ m ∈ cl, m.similarity < 0.9999) ∧
    (∀ i cl, (i, q) ∈ store → (∃ r ∈ meta, r.id = i) → 0 ≤ t → t ≤ 1 →
      find_clones store meta q t none false = Except.ok cl →
      ∃ m ∈ cl, m.snippet_id = i ∧ (0.9999 : ℝ) ≤ m.similarity) := by
  constructor
  · intro cl hcl m hm
    obtain ⟨r, -, hcl'⟩ := find_clones_ok hcl
    subst hcl'
    have hm1 := mem_truncate hm
    rw [mem_sort_by_similarity, clones_of_hits] at hm1
    exact hydrate_results_exclude hm1
  · intro i cl hstv hmeta h0 h1 hcl
    obtain ⟨r, hth', hcl'⟩ := find_clones_ok hcl
    rw [cosine_to_l2_threshold, if_pos ⟨h0, h1⟩] at hth'
    have hrv : r = Real.sqrt (2 - 2 * t) :=
      ((Except.ok.injEq _ _ ▸ hth')).symm
    have hhit : (i, Real.sqrt (sqDist q q)) ∈ range_search store q r := by
      apply mem_range_search.mpr
      refine ⟨(i, q), hstv, ?_, rfl⟩
      rw [sqDist_self, Real.sqrt_zero, hrv]
      exact Real.sqrt_nonneg _
    have hp : (i, l2_to_cosine_similarity (Real.sqrt (sqDist q q))) ∈
        ((range_search store q r).map Prod.fst).zip
          ((range_search store q r).map fun h => l2_to_cosine_similarity h.2) := by
      rw [List.zip_map']
      exact List.mem_map.mpr ⟨(i, Real.sqrt (sqDist q q)), hhit, rfl⟩
    have hsim1 : l2_to_cosine_similarity (Real.sqrt (sqDist q q)) = 1 := by
      rw [sqDist_self, Real.sqrt_zero, l2_to_cosine_similarity]
      norm_num
    obtain ⟨m, hmem, hid, hs⟩ :=
      hydrate_results_mem_of hp hmeta false (by simp)
    refine ⟨m, ?_, hid, by rw [hs, hsim1]; norm_num⟩
    rw [hcl', truncate, mem_sort_by_similarity, clones_of_hits]
    exact hmem

/-- C10: `find_clones_batch` has no `exclude_self` parameter and always
hydrates with the default exclusion, so for every non-empty list of
queries every match with similarity at least 0.9999 is absent from every
per-query result list. -/
theorem C10_batch_always_excludes (store : List (Int × Vec))
    (meta : List SnippetRow) (qs : List Vec) (t : ℝ) (_hne : qs ≠ [])
    (lists : List (List CloneMatch))
    (hl : find_clones_batch store meta qs t = Except.ok lists) :
    ∀ l ∈ lists, ∀ m ∈ l, m.similarity < 0.9999 := by
  intro l hml m hm
  rcases find_clones_batch_ok hl with h | ⟨r, -, h⟩
  · subst h; simp at hml
  · subst h
    obtain ⟨q', -, hq'⟩ := List.mem_map.mp hml
    rw [← hq', mem_sort_by_similarity, clones_of_hits] at hm
    exact hydrate_results_exclude hm

/-- C8 (amended): every result list produced by hydration (`find_clones`
and each per-query list of `find_clones_batch`) is sorted by similarity
descending; matches with equal similarity keep their pre-sort (index hit)
order, since Python's `list.sort` is stable and uses only the similarity
as key — there is no ID tie-break. -/
theorem C8_sorted_by_similarity_descending (store : List (Int × Vec))
    (meta : List SnippetRow) (q : Vec) (t : ℝ) (mr : Option ℕ) (ex : Bool) :
    (∀ cl, find_clones store meta q t mr ex = Except.ok cl →
      cl.Sorted fun a b => b.similarity ≤ a.similarity) ∧
    (∀ qs lists, find_clones_batch store meta qs t = Except.ok lists →
      ∀ l ∈ lists, l.Sorted fun a b => b.similarity ≤ a.similarity) := by
  constructor
  · intro cl hcl
    obtain ⟨r, -, hcl'⟩ := find_clones_ok hcl
    rw [hcl']
    exact sorted_truncate (sorted_sort_by_similarity _)
  · intro qs lists hl l hml
    rcases find_clones_batch_ok hl with h | ⟨r, -, h⟩
    · subst h; simp at hml
    · subst h
      obtain ⟨q', -, hq'⟩ := List.mem_map.mp hml
      rw [← hq']
      exact sorted_sort_by_similarity _

/-- A two-vector store with identical vectors under IDs 5 and 2, stored in
that order: the concrete input of the C8 counterexample. -/
def cexStore : List (Int × Vec) := [(5, [1, 0]), (2, [1, 0])]

/-- Metadata rows for the counterexample store. -/
def cexMeta : List SnippetRow :=
  [{ id := 5, code := "y", file_path := "b.py", start_line := 1,
     end_line := 2, language := "python", function_name := none },
   { id := 2, code := "x", file_path := "a.py", start_line := 1,
     end_line := 2, language := "python", function_name := none }]

theorem cosine_to_l2_threshold_half :
    cosine_to_l2_threshold (1 / 2 : ℝ) = Except.ok 1 := by
  rw [cosine_to_l2_threshold, if_pos (by norm_num)]
  rw [show (2 - 2 * (1 / 2 : ℝ)) = 1 by norm_num, Real.sqrt_one]

theorem sqrt_sqDist_self (v : Vec) : Real.sqrt (sqDist v v) = 0 := by
  rw [sqDist_self, Real.sqrt_zero]

theorem range_search_cex :
    range_search cexStore [1, 0] 1 = [(5, 0), (2, 0)] := by
  rw [range_search, cexStore]
  norm_num [List.filterMap_cons, sqrt_sqDist_self, sqDist_self]

theorem find_clones_cex_eval :
    find_clones cexStore cexMeta [1, 0] (1 / 2) none false =
      Except.ok
        [{ snippet_id := 5, file_path := "b.py", start_line := 1,
           end_line := 2, language := "python", function_name := none,
           similarity := 1, code := "y" },
         { snippet_id := 2, file_path := "a.py", start_line := 1,
           end_line := 2, language := "python", function_name := none,
           similarity := 1, code := "x" }] := by
  rw [find_clones.eq_def, cosine_to_l2_threshold_half]
  show Except.ok (truncate none (sort_by_similarity
    (clones_of_hits cexMeta (range_search cexStore [1, 0] 1) false))) = _
  rw [range_search_cex, truncate, clones_of_hits]
  norm_num [hydrate_results, l2_to_cosine_similarity, cexMeta,
    List.find?, sort_by_similarity, List.insertionSort, List.orderedInsert]

/-- C8 counterexample: with two identical stored vectors under IDs 5 and 2
(stored in that order) and exclusion disabled, `find_clones` returns the
two matches with equal similarity 1 in the order [5, 2]: equal-similarity
matches are NOT in ascending ID order, refuting the claimed tie-break. -/
theorem C8_counterexample :
    find_clones cexStore cexMeta [1, 0] (1 / 2) none false =
      Except.ok
        [{ snippet_id := 5, file_path := "b.py", start_line := 1,
           end_line := 2, language := "python", function_name := none,
           similarity := 1, code := "y" },
         { snippet_id := 2, file_path := "a.py", start_line := 1,
           end_line := 2, language := "python", function_name := none,
           similarity := 1, code := "x" }] :=
  find_clones_cex_eval

/-- C8 amended-claim witness: the concrete result list of the
counterexample run is indeed sorted by similarity descending. -/
theorem C8_sorted_by_similarity_descending_witness :
    ([{ snippet_id := 5, file_path := "b.py", start_line := 1,
        end_line := 2, language := "python", function_name := none,
        similarity := 1, code := "y" },
      { snippet_id := 2, file_path := "a.py", start_line := 1,
        end_line := 2, language := "python", function_name := none,
        similarity := 1, code := "x" }] : List CloneMatch).Sorted
      (fun a b => b.similarity ≤ a.similarity) :=
  (C8_sorted_by_similarity_descending cexStore cexMeta [1, 0] (1 / 2)
    none false).1 _ find_clones_cex_eval

/-- C7 witness: in the counterexample store, the query [1, 0] equals the
stored vector with ID 5 and exclusion is disabled, so a match for ID 5
with similarity at least 0.9999 is present. -/
theorem C7_self_match_exclusion_witness :
    ∃ m ∈ [({ snippet_id := 5, file_path := "b.py", start_line := 1,
              end_line := 2, language := "python", function_name := none,
              similarity := 1, code := "y" } : CloneMatch),
           { snippet_id := 2, file_path := "a.py", start_line := 1,
             end_line := 2, language := "python", function_name := none,
             similarity := 1, code := "x" }],
      m.snippet_id = 5 ∧ (0.9999 : ℝ) ≤ m.similarity :=
  (C7_self_match_exclusion cexStore cexMeta [1, 0] (1 / 2) none).2 5 _
    (List.mem_cons_self _ _)
    ⟨{ id := 5, code := "y", file_path := "b.py", start_line := 1,
       end_line := 2, language := "python", function_name := none },
      List.mem_cons_self _ _, rfl⟩
    (by norm_num) (by norm_num) find_clones_cex_eval

theorem find_clones_batch_cex_eval :
    find_clones_batch cexStore cexMeta [[1, 0]] (1 / 2) =
      Except.ok [[]] := by
  rw [find_clones_batch.eq_def]
  rw [if_neg (by simp)]
  rw [cosine_to_l2_threshold_half]
  show Except.ok [sort_by_similarity
    (clones_of_hits cexMeta (range_search cexStore [1, 0] 1) true)] = _
  rw [range_search_cex, clones_of_hits]
  norm_num [hydrate_results, l2_to_cosine_similarity, cexMeta,
    List.find?, sort_by_similarity, List.insertionSort]

/-- C10 witness: a concrete non-empty batch query over the counterexample
store: the self matches (similarity 1) are all excluded. -/
theorem C10_batch_always_excludes_witness :
    ([[1, 0]] : List Vec) ≠ [] ∧
      ∀ l ∈ [([] : List CloneMatch)], ∀ m ∈ l, m.similarity < 0.9999 :=
  ⟨List.cons_ne_nil _ _,
    C10_batch_always_excludes cexStore cexMeta [[1, 0]] (1 / 2)
      (List.cons_ne_nil _ _) _ find_clones_batch_cex_eval⟩

theorem find?_filter_of_imp (l : List SnippetRow) (p q : SnippetRow → Bool)
    (h : ∀ x, p x = true → q x = true) :
    (l.filter q).find? p = l.find? p := by
  induction l with
  | nil => rfl
  | cons x xs ih =>
    rw [List.filter_cons]
    by_cases hq : q x = true
    · rw [if_pos hq]
      rw [List.find?_cons, List.find?_cons]
      cases hp : p x
      · exact ih
      · rfl
    · rw [if_neg hq]
      have hp : p x = false := by
        cases hpx : p x
        · rfl
        · exact absurd (h x hpx) hq
      rw [ih, List.find?_cons, hp]

theorem find?_filter_none (l : List SnippetRow) (p q : SnippetRow → Bool)
    (h : ∀ x, q x = true → p x = false) :
    (l.filter q).find? p = none := by
  rw [List.find?_eq_none]
  intro x hx
  rw [List.mem_filter] at hx
  rw [h x hx.2]
  simp

theorem get_snippet_upsert (tbl : List SnippetRow) (r : SnippetRow)
    (i : Int) :
    MetadataStore.get_snippet (MetadataStore.upsert_row tbl r) i
      = if r.id = i then some r else MetadataStore.get_snippet tbl i := by
  rw [MetadataStore.get_snippet, MetadataStore.upsert_row, List.find?_append]
  by_cases hri : r.id = i
  · rw [if_pos hri]
    rw [find?_filter_none tbl _ _ (fun x hx => ?_)]
    · simp [List.find?, hri]
    · simp only [decide_eq_true_eq] at hx
      exact decide_eq_false fun hcon => hx (hcon.trans hri.symm)
  · rw [if_neg hri]
    rw [find?_filter_of_imp tbl _ _ (fun x hx => ?_)]
    · rw [MetadataStore.get_snippet]
      simp [List.find?, hri]
    · simp only [decide_eq_true_eq] at hx ⊢
      rw [hx]
      exact fun hcon => hri hcon.symm

theorem pairwise_upsert (tbl : List SnippetRow) (r : SnippetRow)
    (h : tbl.Pairwise fun a b => a.id ≠ b.id) :
    (MetadataStore.upsert_row tbl r).Pairwise fun a b => a.id ≠ b.id := by
  rw [MetadataStore.upsert_row, List.pairwise_append]
  refine ⟨h.filter _, List.pairwise_singleton _ _, ?_⟩
  intro a ha b hb
  rw [List.mem_filter] at ha
  rw [List.mem_singleton] at hb
  subst hb
  simpa using ha.2

theorem ids_toFinset_upsert (tbl : List SnippetRow) (r : SnippetRow) :
    ((MetadataStore.upsert_row tbl r).map fun x => x.id).toFinset
      = insert r.id ((tbl.map fun x => x.id).toFinset) := by
  rw [MetadataStore.upsert_row, List.map_append, List.toFinset_append]
  ext j
  simp only [Finset.mem_union, List.mem_toFinset, List.mem_map,
    List.mem_filter, List.mem_singleton, Finset.mem_insert,
    decide_eq_true_eq]
  constructor
  · rintro (⟨x, ⟨hx, -⟩, hxid⟩ | ⟨x, hx, hxid⟩)
    · exact Or.inr ⟨x, hx, hxid⟩
    · subst hx
      exact Or.inl hxid.symm
  · rintro (hj | ⟨x, hx, hxid⟩)
    · exact Or.inr ⟨r, rfl, hj.symm⟩
    · by_cases hxr : x.id = r.id
      · exact Or.inr ⟨r, rfl, by rw [← hxid, hxr]⟩
      · exact Or.inl ⟨x, ⟨hx, hxr⟩, hxid⟩

theorem add_snippets_batch_cons (tbl : List SnippetRow) (r : SnippetRow)
    (b : List SnippetRow) :
    MetadataStore.add_snippets_batch tbl (r :: b)
      = MetadataStore.add_snippets_batch (MetadataStore.upsert_row tbl r) b :=
  rfl

theorem pairwise_add_snippets_batch (b : List SnippetRow) :
    ∀ tbl : List SnippetRow, (tbl.Pairwise fun a c => a.id ≠ c.id) →
      (MetadataStore.add_snippets_batch tbl b).Pairwise
        fun a c => a.id ≠ c.id := by
  induction b with
  | nil => exact fun tbl h => h
  | cons r bs ih =>
    intro tbl h
    rw [add_snippets_batch_cons]
    exact ih _ (pairwise_upsert tbl r h)

theorem ids_toFinset_add_snippets_batch (b : List SnippetRow) :
    ∀ tbl : List SnippetRow,
      ((MetadataStore.add_snippets_batch tbl b).map fun x => x.id).toFinset
        = ((tbl.map fun x => x.id).toFinset)
            ∪ ((b.map fun x => x.id).toFinset) := by
  induction b with
  | nil =>
    intro tbl
    simp [MetadataStore.add_snippets_batch]
  | cons r bs ih =>
    intro tbl
    rw [add_snippets_batch_cons, ih, ids_toFinset_upsert]
    ext j
    simp only [Finset.mem_union, Finset.mem_insert, List.map_cons,
      List.toFinset_cons]
    tauto

theorem get_snippet_add_snippets_batch (b : List SnippetRow) :
    ∀ (tbl : List SnippetRow) (i : Int),
      MetadataStore.get_snippet (MetadataStore.add_snippets_batch tbl b) i
        = (b.reverse.find? fun x => x.id = i).or
            (MetadataStore.get_snippet tbl i) := by
  induction b with
  | nil =>
    intro tbl i
    simp [MetadataStore.add_snippets_batch]
  | cons r bs ih =>
    intro tbl i
    rw [add_snippets_batch_cons, ih, List.reverse_cons, List.find?_append,
      get_snippet_upsert, Option.or_assoc]
    congr 1
    by_cases hri : r.id = i
    · simp [List.find?, hri]
    · simp [List.find?, hri]

/-- C9: starting from a store whose rows have pairwise-distinct IDs,
upserting a batch and then a second batch with overlapping IDs leaves
pairwise-distinct IDs (exactly one record per ID), `count()` equals the
number of distinct IDs seen (no double counting), and every ID written by
the second batch maps to the second batch's last record with that ID
(last write wins). -/
theorem C9_upsert_overlap_last_write_wins (tbl b1 b2 : List SnippetRow)
    (h : tbl.Pairwise fun a b => a.id ≠ b.id) :
    ((MetadataStore.add_snippets_batch
        (MetadataStore.add_snippets_batch tbl b1) b2).Pairwise
      fun a b => a.id ≠ b.id) ∧
    (MetadataStore.count (MetadataStore.add_snippets_batch
        (MetadataStore.add_snippets_batch tbl b1) b2)
      = (((tbl ++ b1) ++ b2).map fun r => r.id).toFinset.card) ∧
    (∀ i : Int, (∃ r ∈ b2, r.id = i) →
      MetadataStore.get_snippet (MetadataStore.add_snippets_batch
          (MetadataStore.add_snippets_batch tbl b1) b2) i
        = b2.reverse.find? fun r => r.id = i) := by
  have hpw := pairwise_add_snippets_batch b2 _
    (pairwise_add_snippets_batch b1 tbl h)
  refine ⟨hpw, ?_, ?_⟩
  · have hnodup : ((MetadataStore.add_snippets_batch
        (MetadataStore.add_snippets_batch tbl b1) b2).map
          fun x => x.id).Nodup := by
      rw [List.Nodup, List.pairwise_map]
      exact hpw
    calc MetadataStore.count (MetadataStore.add_snippets_batch
          (MetadataStore.add_snippets_batch tbl b1) b2)
        = ((MetadataStore.add_snippets_batch
            (MetadataStore.add_snippets_batch tbl b1) b2).map
              fun x => x.id).length := (List.length_map _ _).symm
      _ = ((MetadataStore.add_snippets_batch
            (MetadataStore.add_snippets_batch tbl b1) b2).map
              fun x => x.id).toFinset.card :=
          (List.toFinset_card_of_nodup hnodup).symm
      _ = (((tbl ++ b1) ++ b2).map fun r => r.id).toFinset.card := by
          rw [ids_toFinset_add_snippets_batch,
            ids_toFinset_add_snippets_batch, List.map_append,
            List.map_append, List.toFinset_append, List.toFinset_append]
  · intro i hi
    rw [get_snippet_add_snippets_batch]
    obtain ⟨r, hrb, hri⟩ := hi
    have hsome : (b2.reverse.find? fun x => x.id = i).isSome := by
      rw [List.find?_isSome]
      exact ⟨r, by simpa using hrb, by simp [hri]⟩
    obtain ⟨v, hv⟩ := Option.isSome_iff_exists.mp hsome
    rw [hv]
    rfl

/-- C9 witness: two one-row batches both writing ID 7; the second write
wins and the count is 1. -/
theorem C9_upsert_overlap_last_write_wins_witness :
    ((MetadataStore.add_snippets_batch (MetadataStore.add_snippets_batch []
        [{ id := 7, code := "def f(): pass", file_path := "a.py",
           start_line := 1, end_line := 1, language := "python",
           function_name := none }])
        [{ id := 7, code := "def g(): pass", file_path := "b.py",
           start_line := 2, end_line := 3, language := "python",
           function_name := none }]).Pairwise
      fun a b => a.id ≠ b.id) ∧
    (MetadataStore.count (MetadataStore.add_snippets_batch
        (MetadataStore.add_snippets_batch []
          [{ id := 7, code := "def f(): pass", file_path := "a.py",
             start_line := 1, end_line := 1, language := "python",
             function_name := none }])
        [{ id := 7, code := "def g(): pass", file_path := "b.py",
           start_line := 2, end_line := 3, language := "python",
           function_name := none }])
      = (((([] : List SnippetRow) ++
            [({ id := 7, code := "def f(): pass", file_path := "a.py",
                start_line := 1, end_line := 1, language := "python",
                function_name := none } : SnippetRow)]) ++
          [({ id := 7, code := "def g(): pass", file_path := "b.py",
              start_line := 2, end_line := 3, language := "python",
              function_name := none } : SnippetRow)]).map
          fun r => r.id).toFinset.card) ∧
    (∀ i : Int, (∃ r ∈
        [({ id := 7, code := "def g(): pass", file_path := "b.py",
            start_line := 2, end_line := 3, language := "python",
            function_name := none } : SnippetRow)], r.id = i) →
      MetadataStore.get_snippet (MetadataStore.add_snippets_batch
          (MetadataStore.add_snippets_batch []
            [{ id := 7, code := "def f(): pass", file_path := "a.py",
               start_line := 1, end_line := 1, language := "python",
               function_name := none }])
          [{ id := 7, code := "def g(): pass", file_path := "b.py",
             start_line := 2, end_line := 3, language := "python",
             function_name := none }]) i
        = [({ id := 7, code := "def g(): pass", file_path := "b.py",
              start_line := 2, end_line := 3, language := "python",
              function_name := none } : SnippetRow)].reverse.find?
            fun r => r.id = i) :=
  C9_upsert_overlap_last_write_wins [] _ _ List.Pairwise.nil

end CloneDetection
